import Mathlib

/-!
# Verification of the findshit POI search / route estimation / navigation dispatch core

Shallow embedding of the TypeScript sources:
* `common/utils/haversine.ts` (GeoMath: `calculateDistance`, `isWithinRadius`, `sortByDistance`)
* `common/localProvider.ts` (`LocalProvider.searchToilets`, seed data)
* `map/HuaweiMapService.ts` (site-search / Overpass / mock fallback chain)
* `map/MapLauncher.ts` (deep-link candidate list and launch loop)
* the route planning service (`RouteService.planRoute`, `getEstimatedRoute`,
  `isWithinTimeLimit`, `parseResponse`)

Conventions: JavaScript numbers that appear as data (coordinates, radii) are
modelled as `ℚ`; transcendental computations are carried out in `ℝ`;
`Math.round` is `jsRound x = ⌊x + 1/2⌋` (JS rounds half towards +∞);
`Math.atan2 y x` is the argument of the complex number `x + y·I`.
Fallible paths are modelled with `Except`; external collaborators (HTTP
responses, the platform's link-opening capabilities) are explicit parameters.
-/

/-- JavaScript `Math.round`: round half towards positive infinity. -/
noncomputable def jsRound (x : ℝ) : ℤ := ⌊x + 1 / 2⌋

/-- JavaScript `Math.atan2 y x`: the angle of the point `(x, y)`, in `(-π, π]`. -/
noncomputable def atan2 (y x : ℝ) : ℝ := Complex.arg ⟨x, y⟩

/-- Coordinate record from `common/types.ts` (`LatLng`).  Concrete program
values are numeric literals, embedded as rationals. -/
structure LatLng where
  lat : ℚ
  lng : ℚ
deriving DecidableEq

/-- POI record from `common/types.ts` (`ToiletPoi extends LatLng`). -/
structure ToiletPoi extends LatLng where
  id : String
  name : String
  distance : Option ℤ := none
  openHours : Option String := none
deriving DecidableEq

namespace Haversine

/-- Source `EARTH_RADIUS_KM` from `common/utils/haversine.ts`. -/
def EARTH_RADIUS_KM : ℝ := 6371

/-- Source `toRadians` from `common/utils/haversine.ts`. -/
noncomputable def toRadians (degrees : ℝ) : ℝ := degrees * (Real.pi / 180)

/-- The real-valued distance in km computed inside `calculateDistance`
(`common/utils/haversine.ts`), before the final `Math.round(distanceKm * 1000)`. -/
noncomputable def distanceKm (point1 point2 : LatLng) : ℝ :=
  let lat1Rad := toRadians point1.lat
  let lat2Rad := toRadians point2.lat
  let deltaLatRad := toRadians ((point2.lat - point1.lat : ℚ) : ℝ)
  let deltaLngRad := toRadians ((point2.lng - point1.lng : ℚ) : ℝ)
  let a := Real.sin (deltaLatRad / 2) * Real.sin (deltaLatRad / 2) +
    Real.cos lat1Rad * Real.cos lat2Rad *
    (Real.sin (deltaLngRad / 2) * Real.sin (deltaLngRad / 2))
  let c := 2 * atan2 (Real.sqrt a) (Real.sqrt (1 - a))
  EARTH_RADIUS_KM * c

/-- Source `calculateDistance` from `common/utils/haversine.ts`: distance in metres,
rounded to the nearest metre. -/
noncomputable def calculateDistance (point1 point2 : LatLng) : ℤ :=
  jsRound (distanceKm point1 point2 * 1000)

/-- Source `isWithinRadius` from `common/utils/haversine.ts`. -/
noncomputable def isWithinRadius (center point : LatLng) (radiusM : ℚ) : Bool :=
  decide ((calculateDistance center point : ℚ) ≤ radiusM)

/-- Comparator used by `sortByDistance` (`(a, b) => a.distance - b.distance`):
ascending order of the filled-in `distance` field. -/
def distLe (a b : ToiletPoi) : Prop := a.distance.getD 0 ≤ b.distance.getD 0

instance : DecidableRel distLe := fun a b => by unfold distLe; infer_instance

instance : IsTotal ToiletPoi distLe :=
  ⟨fun a b => le_total (a.distance.getD 0) (b.distance.getD 0)⟩

instance : IsTrans ToiletPoi distLe :=
  ⟨fun _ _ _ hab hbc => le_trans hab hbc⟩

/-- Source `sortByDistance` from `common/utils/haversine.ts`: fill in `distance`
for every POI, then sort ascending by it. -/
noncomputable def sortByDistance (pois : List ToiletPoi) (center : LatLng) :
    List ToiletPoi :=
  (pois.map fun poi =>
      { poi with distance := some (calculateDistance center poi.toLatLng) }).insertionSort
    distLe

end Haversine

namespace LocalProvider

/-- Source `DEFAULT_LIMIT` from `common/config.ts`. -/
def DEFAULT_LIMIT : ℕ := 20

/-- Source `SearchOptions` from `common/types.ts`; `limit` is optional and defaults
to `DEFAULT_LIMIT` at the use site. -/
structure SearchOptions where
  center : LatLng
  radiusM : ℚ
  limit : Option ℕ := none

/-- Source `LocalProvider.searchToilets` from `common/localProvider.ts`:
filter the seed set by radius, fill in distances and sort ascending,
then truncate to the result limit. -/
noncomputable def searchToilets (seedData : List ToiletPoi) (options : SearchOptions) :
    List ToiletPoi :=
  let lim := options.limit.getD DEFAULT_LIMIT
  let nearbyToilets := seedData.filter fun toilet =>
    Haversine.isWithinRadius options.center toilet.toLatLng options.radiusM
  let toiletsWithDistance := Haversine.sortByDistance nearbyToilets options.center
  toiletsWithDistance.take lim

/-- Source `LocalProvider.getDefaultSeedData` from `common/localProvider.ts`. -/
def getDefaultSeedData : List ToiletPoi :=
  [⟨⟨31.2317, 121.4750⟩, "toilet_001", "人民广场地铁站公厕", none, some "06:00-23:00"⟩,
   ⟨⟨31.2342, 121.4789⟩, "toilet_002", "南京东路步行街公厕", none, some "24h"⟩,
   ⟨⟨31.2396, 121.4906⟩, "toilet_003", "外滩观光隧道公厕", none, some "07:00-22:00"⟩,
   ⟨⟨31.2267, 121.4920⟩, "toilet_004", "豫园商城公厕", none, some "08:00-21:00"⟩,
   ⟨⟨31.2198, 121.4762⟩, "toilet_005", "新天地广场公厕", none, some "24h"⟩,
   ⟨⟨31.2289, 121.4478⟩, "toilet_006", "静安寺地铁站公厕", none, some "06:00-23:30"⟩,
   ⟨⟨31.1956, 121.4370⟩, "toilet_007", "徐家汇商圈公厕", none, some "07:00-22:30"⟩,
   ⟨⟨31.2352, 121.5058⟩, "toilet_008", "陆家嘴金融中心公厕", none, some "24h"⟩,
   ⟨⟨31.2231, 121.4242⟩, "toilet_009", "中山公园地铁站公厕", none, some "06:00-23:00"⟩,
   ⟨⟨31.2108, 121.4661⟩, "toilet_010", "田子坊文化街公厕", none, some "08:00-20:00"⟩,
   ⟨⟨31.2289, 121.4756⟩, "toilet_011", "上海博物馆公厕", none, some "09:00-17:00"⟩,
   ⟨⟨31.2258, 121.4928⟩, "toilet_012", "城隍庙旅游区公厕", none, some "07:00-21:00"⟩,
   ⟨⟨31.2198, 121.4689⟩, "toilet_013", "淮海中路商业街公厕", none, some "24h"⟩,
   ⟨⟨31.1979, 121.3364⟩, "toilet_014", "虹桥机场T2航站楼公厕", none, some "24h"⟩,
   ⟨⟨31.2495, 121.4558⟩, "toilet_015", "上海火车站公厕", none, some "24h"⟩]

end LocalProvider

namespace Huawei

/-- Raw item of a site-search response (`resp.sites` / `resp.results` in
`map/HuaweiMapService.ts`).  The string fields are the values after the
source's `??`-defaulting chains (`el?.name ?? el?.poi?.name ?? '公共厕所'`,
etc.); the coordinates may be missing, in which case the computed distance is
`NaN` and the `Number.isFinite` filter drops the point. -/
structure RawSite where
  id : String
  name : String
  address : String
  lat : Option ℚ
  lon : Option ℚ

/-- Source `el.tags` of an Overpass element. -/
structure OvpTags where
  name : Option String := none
  addr_full : Option String := none
  addr_street : Option String := none

/-- Raw Overpass API element (`data.elements[i]` in `map/HuaweiMapService.ts`). -/
structure OvpElement where
  id : String
  tags : OvpTags
  lat : Option ℚ
  lon : Option ℚ

/-- JavaScript `x || y` on an optionally-present string (falsy on `''`). -/
def jsOrStr : Option String → String → String
  | some s, y => if s = "" then y else s
  | none, y => y

/-- Normalized POI (`Site` + `distance` from `map/MapService.ts`). -/
structure HwToilet where
  id : String
  name : String
  address : String
  latitude : Option ℚ
  longitude : Option ℚ
  distance : Option ℤ
deriving DecidableEq

/-- Source `toRad` as inlined twice in `map/HuaweiMapService.ts`. -/
noncomputable def toRad (x : ℝ) : ℝ := x * Real.pi / 180

/-- The `haversine` closure inlined in `searchWithHuaweiSite`
(`R = 6371000`, `c = 2·atan2(√a, √(1-a))`). -/
noncomputable def siteHaversine (lat1 lon1 lat2 lon2 : ℝ) : ℝ :=
  let R : ℝ := 6371000
  let dLat := toRad (lat2 - lat1)
  let dLon := toRad (lon2 - lon1)
  let a := Real.sin (dLat / 2) ^ 2 +
    Real.cos (toRad lat1) * Real.cos (toRad lat2) * Real.sin (dLon / 2) ^ 2
  let c := 2 * atan2 (Real.sqrt a) (Real.sqrt (1 - a))
  R * c

/-- The `haversine` closure inlined in `searchWithHuaweiMapKit`
(Overpass path; `2·R·asin(√a)` form). -/
noncomputable def ovpHaversine (lat1 lon1 lat2 lon2 : ℝ) : ℝ :=
  let R : ℝ := 6371000
  let dLat := toRad (lat2 - lat1)
  let dLon := toRad (lon2 - lon1)
  let a := Real.sin (dLat / 2) ^ 2 +
    Real.cos (toRad lat1) * Real.cos (toRad lat2) * Real.sin (dLon / 2) ^ 2
  2 * R * Real.arcsin (Real.sqrt a)

/-- Ascending comparator `(a, b) => a.distance - b.distance` on normalized POIs. -/
def hwDistLe (a b : HwToilet) : Prop := a.distance.getD 0 ≤ b.distance.getD 0

instance : DecidableRel hwDistLe := fun a b => by unfold hwDistLe; infer_instance

instance : IsTotal HwToilet hwDistLe :=
  ⟨fun a b => le_total (a.distance.getD 0) (b.distance.getD 0)⟩

instance : IsTrans HwToilet hwDistLe :=
  ⟨fun _ _ _ hab hbc => le_trans hab hbc⟩

/-- The `Number.isFinite(t.distance) && t.distance <= radiusMeters` filter. -/
def keepWithin (radiusMeters : ℚ) (t : HwToilet) : Bool :=
  match t.distance with
  | some d => decide ((d : ℚ) ≤ radiusMeters)
  | none => false

/-- The map–filter–sort normalization of `searchWithHuaweiSite`
(`map/HuaweiMapService.ts`, lines 65–81). -/
noncomputable def normalizeSite (longitude latitude radiusMeters : ℚ)
    (items : List RawSite) : List HwToilet :=
  ((items.map fun el =>
      { id := el.id, name := el.name, address := el.address,
        latitude := el.lat, longitude := el.lon,
        distance :=
          match el.lat, el.lon with
          | some la, some lo => some (jsRound (siteHaversine latitude longitude la lo))
          | _, _ => none : HwToilet }).filter
    (keepWithin radiusMeters)).insertionSort hwDistLe

/-- The map–filter–sort normalization of the Overpass path
(`map/HuaweiMapService.ts`, lines 129–144). -/
noncomputable def normalizeOvp (longitude latitude radiusMeters : ℚ)
    (elements : List OvpElement) : List HwToilet :=
  ((elements.map fun el =>
      { id := el.id,
        name := jsOrStr el.tags.name "公共厕所",
        address := jsOrStr el.tags.addr_full (jsOrStr el.tags.addr_street ""),
        latitude := el.lat, longitude := el.lon,
        distance :=
          match el.lat, el.lon with
          | some la, some lo => some (jsRound (ovpHaversine latitude longitude la lo))
          | _, _ => none : HwToilet }).filter
    (keepWithin radiusMeters)).insertionSort hwDistLe

/-- Source `searchWithHuaweiMapKit` (Overpass): the HTTP outcome is a parameter;
a non-200 response or network error is rethrown to the caller. -/
noncomputable def searchWithHuaweiMapKit (ovp : Except Unit (List OvpElement))
    (longitude latitude radiusMeters : ℚ) : Except Unit (List HwToilet) :=
  match ovp with
  | .error e => .error e
  | .ok els => .ok (normalizeOvp longitude latitude radiusMeters els)

/-- Source `searchWithHuaweiSite`: on a site-search error, or when the *raw* item
list is empty, fall back to the Overpass path; otherwise return the
normalized site results (even when normalization leaves zero points). -/
noncomputable def searchWithHuaweiSite (site : Except Unit (List RawSite))
    (ovp : Except Unit (List OvpElement))
    (longitude latitude radiusMeters : ℚ) : Except Unit (List HwToilet) :=
  match site with
  | .error _ => searchWithHuaweiMapKit ovp longitude latitude radiusMeters
  | .ok items =>
    if items.isEmpty then searchWithHuaweiMapKit ovp longitude latitude radiusMeters
    else .ok (normalizeSite longitude latitude radiusMeters items)

/-- The hard-coded mock entries of `getMockToiletData`. -/
def mockResults (longitude latitude : ℚ) : List HwToilet :=
  [⟨"1", "人民广场地铁站公厕", "人民广场地铁站B1层",
      some (latitude + 0.001), some (longitude + 0.001), some 120⟩,
   ⟨"2", "南京东路步行街公厕", "南京东路步行街中段",
      some (latitude - 0.001), some (longitude - 0.001), some 250⟩,
   ⟨"3", "外滩观光隧道公厕", "外滩观光隧道入口处",
      some (latitude - 0.001), some (longitude + 0.002), some 380⟩,
   ⟨"4", "豫园商城公厕", "豫园商城1楼东侧",
      some (latitude + 0.001), some (longitude - 0.002), some 450⟩,
   ⟨"5", "新天地广场公厕", "新天地广场地下一层",
      some (latitude + 0.002), some (longitude + 0.003), some 680⟩,
   ⟨"6", "静安寺地铁站公厕", "静安寺地铁站2号出口",
      some (latitude + 0.003), some (longitude - 0.003), some 750⟩,
   ⟨"7", "徐家汇商圈公厕", "徐家汇港汇恒隆广场B1层",
      some (latitude - 0.002), some (longitude + 0.004), some 890⟩,
   ⟨"8", "陆家嘴金融中心公厕", "陆家嘴环路正大广场",
      some (latitude - 0.003), some (longitude - 0.004), some 950⟩]

/-- Source `getMockToiletData`: filter the mock entries by radius and sort by
distance. -/
def getMockToiletData (longitude latitude radiusMeters : ℚ) : List HwToilet :=
  (mockResults longitude latitude |>.filter
    fun toilet => decide ((toilet.distance.getD 0 : ℚ) ≤ radiusMeters)).insertionSort hwDistLe

/-- Source `searchNearbyToilets`: try the site search (with its internal Overpass
fallback); any error is caught and answered with the mock data. -/
noncomputable def searchNearbyToilets (site : Except Unit (List RawSite))
    (ovp : Except Unit (List OvpElement))
    (longitude latitude radiusMeters : ℚ) : List HwToilet :=
  match searchWithHuaweiSite site ovp longitude latitude radiusMeters with
  | .ok r => r
  | .error _ => getMockToiletData longitude latitude radiusMeters

end Huawei

/-- Source `TravelMode` (walking / cycling), shared by the route service and the
launcher (`'walking' | 'cycling'`). -/
inductive TravelMode where
  | walking
  | cycling
deriving DecidableEq

namespace RouteSvc

/-- Source `RouteRequest` from the route planning service. -/
structure RouteRequest where
  origin : LatLng
  destination : LatLng
  travelMode : TravelMode
  timeLimit : Option ℚ := none

/-- Source `RouteStep` from the route planning service. -/
structure RouteStep where
  instruction : String
  orientation : String
  roadName : String
  stepDistance : ℤ
  duration : ℚ
deriving DecidableEq

/-- Source `RouteResult` from the route planning service.  Note: there is no
`source` field — a live and an estimated result share this exact shape. -/
structure RouteResult where
  distance : ℤ
  duration : ℚ
  steps : List RouteStep
  polyline : Option String := none
deriving DecidableEq

/-- Source `RouteService.apiKey`: the hard-coded empty Amap API key
(`// TODO: 需要配置高德地图API Key`). -/
def apiKey : String := ""

/-- Source `RouteService.calculateDistance`: raw haversine metres
(`R = 6371000`, `c = 2·atan2(√a, √(1-a))`), not rounded. -/
noncomputable def calculateDistance (pos1 pos2 : LatLng) : ℝ :=
  let R : ℝ := 6371000
  let lat1Rad := (pos1.lat : ℝ) * Real.pi / 180
  let lat2Rad := (pos2.lat : ℝ) * Real.pi / 180
  let deltaLatRad := ((pos2.lat - pos1.lat : ℚ) : ℝ) * Real.pi / 180
  let deltaLngRad := ((pos2.lng - pos1.lng : ℚ) : ℝ) * Real.pi / 180
  let a := Real.sin (deltaLatRad / 2) * Real.sin (deltaLatRad / 2) +
    Real.cos lat1Rad * Real.cos lat2Rad *
    (Real.sin (deltaLngRad / 2) * Real.sin (deltaLngRad / 2))
  let c := 2 * atan2 (Real.sqrt a) (Real.sqrt (1 - a))
  R * c

/-- Source `RouteService.getEstimatedRoute`: analytic fallback — straight-line
haversine distance, constant speed 1.39 m/s (walking) or 4.17 m/s (cycling),
both distance and duration rounded with `Math.round`. -/
noncomputable def getEstimatedRoute (request : RouteRequest) : RouteResult :=
  let distance := calculateDistance request.origin request.destination
  let duration : ℝ :=
    if request.travelMode = TravelMode.walking then distance / 1.39 else distance / 4.17
  { distance := jsRound distance,
    duration := (jsRound duration : ℤ),
    steps := [{ instruction :=
                  (if request.travelMode = TravelMode.walking then "步行" else "骑行") ++ "前往目的地",
                orientation := "", roadName := "",
                stepDistance := jsRound distance,
                duration := (jsRound duration : ℤ) }] }

/-- A step object of a parsed Amap JSON response.  `step_distance` is the
value of `parseInt(step.step_distance)` (`none` when unparsable),
`costDuration` is `step.cost?.duration`. -/
structure AmapStep where
  instruction : Option String := none
  orientation : Option String := none
  road_name : Option String := none
  step_distance : Option ℤ := none
  costDuration : Option ℚ := none

/-- A path object of an Amap response; `distance` is `parseInt(path.distance)`. -/
structure AmapPath where
  distance : Option ℤ := none
  costDuration : Option ℚ := none
  steps : Option (List AmapStep) := none
  polyline : Option String := none

/-- Source `response.route`. -/
structure AmapRoute where
  paths : Option (List AmapPath) := none

/-- An Amap routing HTTP response body. -/
structure AmapResponse where
  status : String
  info : String := ""
  route : Option AmapRoute := none

/-- Source `RouteService.parseResponse`: reject non-`'1'` status and missing/empty
path lists, otherwise build a `RouteResult` from the first path. -/
def parseResponse (response : AmapResponse) (travelMode : TravelMode) :
    Except String RouteResult :=
  if response.status ≠ "1" then .error ("API错误: " ++ response.info)
  else
    match response.route with
    | none => .error "未找到可用路线"
    | some route =>
      match route.paths with
      | none => .error "未找到可用路线"
      | some [] => .error "未找到可用路线"
      | some (path :: _) =>
        let steps := (path.steps.getD []).map fun step =>
          { instruction := step.instruction.getD "",
            orientation := step.orientation.getD "",
            roadName := step.road_name.getD "",
            stepDistance := step.step_distance.getD 0,
            duration := step.costDuration.getD 0 : RouteStep }
        .ok { distance := path.distance.getD 0,
              duration := path.costDuration.getD 0,
              steps := steps,
              polyline := path.polyline }

/-- Source `RouteService.planRoute`: with no API key configured, return the analytic
estimate immediately; otherwise try the live request/parse and fall back to
the estimate on any failure.  The HTTP outcome is a parameter. -/
noncomputable def planRoute (httpOutcome : Except String AmapResponse)
    (request : RouteRequest) : Except String RouteResult :=
  if apiKey = "" then .ok (getEstimatedRoute request)
  else
    match httpOutcome with
    | .error _ => .ok (getEstimatedRoute request)
    | .ok resp =>
      match parseResponse resp request.travelMode with
      | .ok result => .ok result
      | .error _ => .ok (getEstimatedRoute request)

/-- Source `RouteService.isWithinTimeLimit`: `route.duration / 60 <= timeLimit`. -/
def isWithinTimeLimit (route : RouteResult) (timeLimit : ℚ) : Bool :=
  decide (route.duration / 60 ≤ timeLimit)

/-- The constant speeds of the analytic estimator, in m/s
(`1.39` walking, `4.17` cycling). -/
def speed : TravelMode → ℝ
  | TravelMode.walking => 1.39
  | TravelMode.cycling => 4.17

end RouteSvc

namespace Launcher

/-- Platform capabilities seen by `MapLauncher` (`map/MapLauncher.ts`):
whether `canOpenLink` is available and what it answers, and whether
`startAbility` / `openLink` succeed for a given URI. -/
structure NavEnv where
  canOpenLink : String → Option Bool
  startAbility : String → Bool
  openLink : String → Bool

/-- Source `MapLauncher.canOpen`: use `canOpenLink` when present, else `true`. -/
def canOpen (env : NavEnv) (link : String) : Bool :=
  match env.canOpenLink link with
  | some ok => ok
  | none => true

/-- Source `MapLauncher.tryOpen`: reject empty URIs, probe, then `startAbility`
followed by `openLink`. -/
def tryOpen (env : NavEnv) (uri : String) : Bool :=
  if uri = "" then false
  else if !canOpen env uri then false
  else env.startAbility uri || env.openLink uri

/-- Hex digit for percent-encoding. -/
def hexChar (n : ℕ) : Char :=
  if n < 10 then Char.ofNat (48 + n) else Char.ofNat (55 + n)

/-- Characters `encodeURIComponent` leaves unescaped. -/
def isUnreserved (c : Char) : Bool :=
  c.isAlphanum || c ∈ ['-', '_', '.', '!', '~', '*', Char.ofNat 39, '(', ')']

/-- JavaScript `encodeURIComponent`: percent-encode the UTF-8 bytes of every
reserved character. -/
def encodeURIComponent (s : String) : String :=
  s.toList.foldl
    (fun acc c =>
      if isUnreserved c then acc.push c
      else
        (String.toUTF8 (String.singleton c)).toList.foldl
          (fun acc2 b =>
            acc2 ++ "%" ++ String.singleton (hexChar (b.toNat / 16)) ++
              String.singleton (hexChar (b.toNat % 16)))
          acc)
    ""

/-- The generic `geo:` link (second-to-last candidate).  `ℚ` values are
rendered with `toString`; this differs in digits from JS number formatting
but no verified property depends on the rendering. -/
def geoUri (latitude longitude : ℚ) (name : String) : String :=
  "geo:" ++ toString latitude ++ "," ++ toString longitude ++ "?q=" ++ name

/-- The web fallback link (last candidate). -/
def httpsFallback (latitude longitude : ℚ) : String :=
  "https://petalmaps.com/?q=" ++ toString latitude ++ "," ++ toString longitude

/-- The ordered candidate list built by `MapLauncher.openNavigation`
(lines 90–116): engine-specific deep links, then `geo:`, then the web
fallback. -/
def buildCandidates (engine : String) (travelMode : TravelMode)
    (latitude longitude : ℚ) (name : String) : List String :=
  let petalModeA := if travelMode = TravelMode.walking then "walking" else "cycling"
  let petalModeB := if travelMode = TravelMode.walking then "walk" else "bike"
  let mapAppMode := if travelMode = TravelMode.walking then "walk" else "cycle"
  let engineCandidates :=
    if engine = "amap" then
      ["amapuri://route/plan/?dlat=" ++ toString latitude ++ "&dlon=" ++ toString longitude ++
        "&dname=" ++ name ++ "&dev=0&t=" ++
        (if travelMode = TravelMode.walking then "2" else "0")]
    else if engine = "baidu" then
      ["baidumap://map/direction?destination=latlng:" ++ toString latitude ++ "," ++
        toString longitude ++ "|name:" ++ name ++ "&coord_type=wgs84&mode=" ++
        (if travelMode = TravelMode.walking then "walking" else "riding")]
    else
      ["petalmaps://routePlan?destLat=" ++ toString latitude ++ "&destLng=" ++
         toString longitude ++ "&destName=" ++ name ++ "&navType=" ++ petalModeA,
       "petalmaps://routePlan?destLat=" ++ toString latitude ++ "&destLng=" ++
         toString longitude ++ "&destName=" ++ name ++ "&navType=" ++ petalModeB,
       "petalmaps://navigation?dlat=" ++ toString latitude ++ "&dlon=" ++
         toString longitude ++ "&dname=" ++ name ++ "&type=" ++ petalModeB,
       "mapapp://navigation?daddr=" ++ toString latitude ++ "," ++ toString longitude ++
         "&language=zh&type=" ++ mapAppMode]
  engineCandidates ++ [geoUri latitude longitude name, httpsFallback latitude longitude]

/-- A URI is a deep link of the selected engine when it carries that
engine's scheme: `amapuri://` for `amap`, `baidumap://` for `baidu`, and the
Petal Maps / MapApp schemes for the default (Huawei) branch. -/
def isEngineDeepLink (engine uri : String) : Prop :=
  if engine = "amap" then ∃ rest, uri = "amapuri://" ++ rest
  else if engine = "baidu" then ∃ rest, uri = "baidumap://" ++ rest
  else (∃ rest, uri = "petalmaps://" ++ rest) ∨ ∃ rest, uri = "mapapp://" ++ rest

/-- The payload of the single `SearchLogStore.appendError` record written when
every candidate fails (`SearchLogInfo` plus the message; the store adds the
timestamp). -/
structure LogRec where
  message : String
  centerLatitude : ℚ
  centerLongitude : ℚ
deriving DecidableEq

/-- Source `MapLauncher.openNavigation`: walk the candidate list, return on the
first successful launch; if all fail, append exactly one aggregated error
record (destination coordinate and engine in the message) and report failure.
The result is the successful URI (if any) paired with the records written to
the append-only log. -/
def openNavigation (env : NavEnv) (engine : String) (toiletName : String)
    (latitude longitude : ℚ) (travelMode : TravelMode) :
    Option String × List LogRec :=
  let name := encodeURIComponent toiletName
  let candidates := buildCandidates engine travelMode latitude longitude name
  match candidates.find? (fun uri => tryOpen env uri) with
  | some uri => (some uri, [])
  | none =>
    (none,
      [{ message := "导航失败: all navigation attempts failed | engine=" ++ engine,
         centerLatitude := latitude, centerLongitude := longitude }])

end Launcher

namespace Haversine

theorem distanceKm_self (a : LatLng) : distanceKm a a = 0 := by
  unfold distanceKm toRadians atan2
  have h0 : ((a.lat - a.lat : ℚ) : ℝ) = 0 := by push_cast; ring
  have h1 : ((a.lng - a.lng : ℚ) : ℝ) = 0 := by push_cast; ring
  rw [h0, h1]
  simp only [zero_mul, zero_div, Real.sin_zero, mul_zero, zero_add, mul_zero, add_zero,
    Real.sqrt_zero, sub_zero, Real.sqrt_one]
  have : (⟨1, 0⟩ : ℂ) = 1 := by
    apply Complex.ext <;> simp
  rw [this, Complex.arg_one]
  ring

theorem distanceKm_symm (a b : LatLng) : distanceKm a b = distanceKm b a := by
  simp only [distanceKm, toRadians]
  have hlat : ((a.lat - b.lat : ℚ) : ℝ) = -((b.lat - a.lat : ℚ) : ℝ) := by push_cast; ring
  have hlng : ((a.lng - b.lng : ℚ) : ℝ) = -((b.lng - a.lng : ℚ) : ℝ) := by push_cast; ring
  rw [hlat, hlng]
  have hs : ∀ x : ℝ, Real.sin (-x * (Real.pi / 180) / 2) * Real.sin (-x * (Real.pi / 180) / 2)
      = Real.sin (x * (Real.pi / 180) / 2) * Real.sin (x * (Real.pi / 180) / 2) := by
    intro x
    have hneg : (-x * (Real.pi / 180) / 2) = -(x * (Real.pi / 180) / 2) := by ring
    rw [hneg, Real.sin_neg]
    ring
  rw [hs, hs]
  ring_nf

/-- C8: For all coordinate pairs `a` and `b` (in particular all valid ones),
`calculateDistance a a = 0` and `calculateDistance a b = calculateDistance b a`. -/
theorem calculateDistance_self_eq_zero_and_symm :
    (∀ a : LatLng, calculateDistance a a = 0) ∧
      ∀ a b : LatLng, calculateDistance a b = calculateDistance b a := by
  constructor
  · intro a
    unfold calculateDistance jsRound
    rw [distanceKm_self]
    norm_num
  · intro a b
    unfold calculateDistance
    rw [distanceKm_symm]

end Haversine

namespace LocalProvider

theorem length_sortByDistance (pois : List ToiletPoi) (center : LatLng) :
    (Haversine.sortByDistance pois center).length = pois.length := by
  unfold Haversine.sortByDistance
  rw [(List.perm_insertionSort _ _).length_eq, List.length_map]

/-- C4: for every search query the returned POI sequence is sorted ascending by
`distanceMeters`, and the `resultLimit` truncation is applied only after the
sort: the result equals the untruncated (sorted) result cut to the limit. -/
theorem searchToilets_sorted_and_truncated_after_sort :
    ∀ (seedData : List ToiletPoi) (options : SearchOptions),
      List.Sorted Haversine.distLe (searchToilets seedData options) ∧
      searchToilets seedData options =
        (searchToilets seedData { options with limit := some seedData.length }).take
          (options.limit.getD DEFAULT_LIMIT) := by
  intro seedData options
  have hsorted : ∀ lim : ℕ, List.Sorted Haversine.distLe
      ((Haversine.sortByDistance
        (seedData.filter fun toilet =>
          Haversine.isWithinRadius options.center toilet.toLatLng options.radiusM)
        options.center).take lim) := by
    intro lim
    exact (List.sorted_insertionSort _ _).sublist (List.take_sublist _ _)
  constructor
  · exact hsorted _
  · show (Haversine.sortByDistance _ _).take _ = _
    have hlen : (Haversine.sortByDistance
        (seedData.filter fun toilet =>
          Haversine.isWithinRadius options.center toilet.toLatLng options.radiusM)
        options.center).length ≤ seedData.length := by
      rw [length_sortByDistance]
      exact List.length_filter_le _ _
    show _ = ((Haversine.sortByDistance _ _).take seedData.length).take _
    rw [List.take_of_length_le hlen]

end LocalProvider

theorem sin_sandwich (x : ℝ) (h0 : 0 ≤ x) (h1 : x ≤ 1) :
    x - x ^ 3 / 6 - x ^ 4 * (5 / 96) ≤ Real.sin x ∧
      Real.sin x ≤ x - x ^ 3 / 6 + x ^ 4 * (5 / 96) := by
  have hb := Real.sin_bound (x := x) (by rwa [abs_of_nonneg h0])
  rw [abs_of_nonneg h0] at hb
  have hb2 := abs_le.mp hb
  constructor <;> linarith [hb2.1, hb2.2]

theorem atan2_sqrt_eq_arcsin (a : ℝ) (h0 : 0 ≤ a) (h1 : a ≤ 1) :
    atan2 (Real.sqrt a) (Real.sqrt (1 - a)) = Real.arcsin (Real.sqrt a) := by
  unfold atan2
  have hs0 : 0 ≤ Real.sqrt a := Real.sqrt_nonneg a
  have hs1 : Real.sqrt a ≤ 1 := Real.sqrt_le_one.mpr h1
  have hsin : Real.sin (Real.arcsin (Real.sqrt a)) = Real.sqrt a :=
    Real.sin_arcsin (by linarith) hs1
  have hcos : Real.cos (Real.arcsin (Real.sqrt a)) = Real.sqrt (1 - a) := by
    rw [Real.cos_arcsin, Real.sq_sqrt h0]
  have hmk : (⟨Real.sqrt (1 - a), Real.sqrt a⟩ : ℂ) =
      Complex.cos (Real.arcsin (Real.sqrt a) : ℝ) +
        Complex.sin (Real.arcsin (Real.sqrt a) : ℝ) * Complex.I := by
    rw [← Complex.ofReal_cos, ← Complex.ofReal_sin, hcos, hsin, Complex.mk_eq_add_mul_I]
  rw [hmk]
  exact Complex.arg_cos_add_sin_mul_I
    ⟨by have := Real.arcsin_nonneg.mpr hs0; have := Real.pi_pos; linarith,
     by have := Real.arcsin_le_pi_div_two (Real.sqrt a); have := Real.pi_pos; linarith⟩

theorem le_arcsin_self (s : ℝ) (h0 : 0 ≤ s) (h1 : s ≤ 1) : s ≤ Real.arcsin s := by
  have ht0 : 0 ≤ Real.arcsin s := Real.arcsin_nonneg.mpr h0
  have hsin : Real.sin (Real.arcsin s) = s := Real.sin_arcsin (by linarith) h1
  rcases eq_or_lt_of_le ht0 with h | h
  · have hz : s = 0 := by rw [← hsin, ← h, Real.sin_zero]
    rw [hz, Real.arcsin_zero]
  · have := Real.sin_lt h
    linarith [hsin ▸ this]

theorem arcsin_le_small (s : ℝ) (h0 : 0 ≤ s) (h1 : s ≤ 1 / 100) :
    Real.arcsin s ≤ s + s ^ 3 := by
  have ht0 : 0 ≤ Real.arcsin s := Real.arcsin_nonneg.mpr h0
  have hsin : Real.sin (Real.arcsin s) = s := Real.sin_arcsin (by linarith) (by linarith)
  -- coarse bound: arcsin s ≤ 1/10
  have hsin01 : (1 / 10 : ℝ) - (1 / 10) ^ 3 / 4 < Real.sin (1 / 10) :=
    Real.sin_gt_sub_cube (by norm_num) (by norm_num)
  have hcoarse : Real.arcsin s ≤ 1 / 10 := by
    have hmono : Real.arcsin s ≤ Real.arcsin (Real.sin (1 / 10)) :=
      Real.monotone_arcsin (by nlinarith)
    rwa [Real.arcsin_sin (by have := Real.pi_pos; linarith)
      (by have := Real.pi_gt_three; linarith)] at hmono
  -- tight bound via the degree-4 Taylor sandwich at `arcsin s`
  have hsw := (sin_sandwich (Real.arcsin s) ht0 (by linarith)).1
  rw [hsin] at hsw
  set t := Real.arcsin s with htdef
  have hA : t ^ 4 ≤ t ^ 3 * (1 / 10) := by
    have := mul_le_mul_of_nonneg_left hcoarse (pow_nonneg ht0 3)
    nlinarith [this]
  have hB : t - s ≤ t ^ 3 * (33 / 192) := by linarith
  have hsq : t ^ 2 ≤ 1 / 100 := by nlinarith [pow_le_pow_left₀ ht0 hcoarse 2]
  have hC : t ^ 3 ≤ t * (1 / 100) := by
    have := mul_le_mul_of_nonneg_left hsq ht0
    nlinarith [this]
  have hD : t * (19167 / 19200) ≤ s := by linarith
  have hE : t ^ 3 * ((19167 / 19200 : ℝ) ^ 3) ≤ s ^ 3 := by
    have hnn : 0 ≤ t * (19167 / 19200 : ℝ) := by positivity
    have := pow_le_pow_left₀ hnn hD 3
    nlinarith [this]
  have hb3 : (0 : ℝ) ≤ s ^ 3 := pow_nonneg h0 3
  nlinarith [hB, hE, pow_nonneg ht0 3, hb3]

theorem arcsin_sqrt_sin_sq (x : ℝ) (h0 : 0 ≤ x) (h2 : x ≤ Real.pi / 2) :
    Real.arcsin (Real.sqrt (Real.sin x ^ 2)) = x := by
  have hsn : 0 ≤ Real.sin x :=
    Real.sin_nonneg_of_nonneg_of_le_pi h0 (by have := Real.pi_pos; linarith)
  rw [Real.sqrt_sq hsn]
  exact Real.arcsin_sin (by have := Real.pi_pos; linarith) h2

theorem atan2_sqrt_sin_sq (x : ℝ) (h0 : 0 ≤ x) (h2 : x ≤ Real.pi / 2) :
    atan2 (Real.sqrt (Real.sin x ^ 2)) (Real.sqrt (1 - Real.sin x ^ 2)) = x := by
  rw [atan2_sqrt_eq_arcsin _ (sq_nonneg _) (Real.sin_sq_le_one x)]
  exact arcsin_sqrt_sin_sq x h0 h2

theorem jsRound_eq_of (z : ℤ) (x : ℝ) (hlo : (z : ℝ) ≤ x + 1 / 2)
    (hhi : x + 1 / 2 < z + 1) : jsRound x = z := by
  unfold jsRound
  exact Int.floor_eq_iff.mpr ⟨hlo, by exact_mod_cast hhi⟩

theorem siteHaversine_equator (y : ℝ) (h0 : 0 ≤ y) (h1 : y ≤ 180) :
    Huawei.siteHaversine 0 0 0 y = 6371000 * (y * Real.pi / 180) := by
  have hx0 : 0 ≤ y * Real.pi / 180 / 2 := by positivity
  have hx2 : y * Real.pi / 180 / 2 ≤ Real.pi / 2 := by
    nlinarith [mul_nonneg (sub_nonneg.mpr h1) Real.pi_pos.le]
  simp only [Huawei.siteHaversine, Huawei.toRad, sub_zero, sub_self, zero_mul, zero_div,
    Real.sin_zero, Real.cos_zero, one_mul, zero_add, ne_eq, OfNat.ofNat_ne_zero,
    not_false_eq_true, zero_pow]
  rw [atan2_sqrt_sin_sq _ hx0 hx2]
  ring

theorem ovpHaversine_equator (y : ℝ) (h0 : 0 ≤ y) (h1 : y ≤ 180) :
    Huawei.ovpHaversine 0 0 0 y = 6371000 * (y * Real.pi / 180) := by
  have hx0 : 0 ≤ y * Real.pi / 180 / 2 := by positivity
  have hx2 : y * Real.pi / 180 / 2 ≤ Real.pi / 2 := by
    nlinarith [mul_nonneg (sub_nonneg.mpr h1) Real.pi_pos.le]
  simp only [Huawei.ovpHaversine, Huawei.toRad, sub_zero, sub_self, zero_mul, zero_div,
    Real.sin_zero, Real.cos_zero, one_mul, zero_add, ne_eq, OfNat.ofNat_ne_zero,
    not_false_eq_true, zero_pow]
  rw [arcsin_sqrt_sin_sq _ hx0 hx2]
  ring

theorem routeDistance_equator (l : ℚ) (h0 : 0 ≤ (l : ℝ)) (h1 : (l : ℝ) ≤ 180) :
    RouteSvc.calculateDistance ⟨0, 0⟩ ⟨0, l⟩ = 6371000 * ((l : ℝ) * Real.pi / 180) := by
  have hx0 : 0 ≤ (l : ℝ) * Real.pi / 180 / 2 := by positivity
  have hx2 : (l : ℝ) * Real.pi / 180 / 2 ≤ Real.pi / 2 := by
    nlinarith [mul_nonneg (sub_nonneg.mpr h1) Real.pi_pos.le]
  simp only [RouteSvc.calculateDistance, sub_zero, sub_self, Rat.cast_zero, zero_mul, zero_div,
    Real.sin_zero, Real.cos_zero, one_mul, zero_add, mul_zero]
  rw [show ∀ z : ℝ, Real.sin z * Real.sin z = Real.sin z ^ 2 from fun z => (pow_two _).symm]
  rw [atan2_sqrt_sin_sq _ hx0 hx2]
  ring

theorem jsRound_c2_dist :
    jsRound (6371000 * ((1 / 10 : ℝ) * Real.pi / 180)) = 11119 := by
  have hl := Real.pi_gt_d20
  have hu := Real.pi_lt_d20
  apply jsRound_eq_of
  · push_cast
    linarith
  · push_cast
    linarith

theorem jsRound_c2_dur :
    jsRound (6371000 * ((1 / 10 : ℝ) * Real.pi / 180) / 1.39) = 8000 := by
  have hl := Real.pi_gt_d20
  have hu := Real.pi_lt_d20
  have hv : 6371000 * ((1 / 10 : ℝ) * Real.pi / 180) / 1.39 =
      Real.pi * (6371000 / 2502) := by
    rw [show (1.39 : ℝ) = 139 / 100 by norm_num]
    ring
  rw [hv]
  apply jsRound_eq_of
  · push_cast
    linarith
  · push_cast
    linarith

theorem getEstimatedRoute_concrete :
    RouteSvc.getEstimatedRoute ⟨⟨0, 0⟩, ⟨0, 1 / 10⟩, TravelMode.walking, none⟩ =
      { distance := 11119, duration := 8000,
        steps := [{ instruction := "步行前往目的地", orientation := "", roadName := "",
                    stepDistance := 11119, duration := 8000 }],
        polyline := none } := by
  have hd : RouteSvc.calculateDistance ⟨0, 0⟩ ⟨0, 1 / 10⟩ =
      6371000 * (((1 / 10 : ℚ) : ℝ) * Real.pi / 180) :=
    routeDistance_equator (1 / 10) (by norm_num) (by norm_num)
  rw [show (((1 / 10 : ℚ)) : ℝ) = (1 / 10 : ℝ) by norm_num] at hd
  simp only [RouteSvc.getEstimatedRoute, hd, reduceIte]
  rw [jsRound_c2_dist, jsRound_c2_dur]
  norm_num
  decide

theorem speed_pos (m : TravelMode) : 0 < RouteSvc.speed m := by
  cases m <;> norm_num [RouteSvc.speed]

theorem estimatedRoute_fields (request : RouteSvc.RouteRequest) :
    (RouteSvc.getEstimatedRoute request).duration =
      ((jsRound (RouteSvc.calculateDistance request.origin request.destination /
        RouteSvc.speed request.travelMode) : ℤ) : ℚ) ∧
    (RouteSvc.getEstimatedRoute request).distance =
      jsRound (RouteSvc.calculateDistance request.origin request.destination) := by
  constructor
  · cases hm : request.travelMode <;>
      simp [RouteSvc.getEstimatedRoute, RouteSvc.speed, hm]
  · rfl

/-- C2 (amended): the route estimator never throws — `planRoute` always
answers `ok` with the analytic estimate (the API key is empty, so the live
path is disabled) — and, with the live path disabled, the estimate's
`durationSeconds` is the raw haversine distance divided by `speed(mode)`
(1.39 m/s walking, 4.17 m/s cycling) **rounded to the nearest second**, and
its `distanceMeters` is the raw distance rounded to the nearest metre (the
spec's "exactly" only holds up to this rounding). -/
theorem planRoute_never_fails_estimated_rounded :
    ∀ (httpOutcome : Except String RouteSvc.AmapResponse)
      (request : RouteSvc.RouteRequest),
      RouteSvc.planRoute httpOutcome request =
        Except.ok (RouteSvc.getEstimatedRoute request) ∧
      (RouteSvc.getEstimatedRoute request).duration =
        ((jsRound (RouteSvc.calculateDistance request.origin request.destination /
          RouteSvc.speed request.travelMode) : ℤ) : ℚ) ∧
      (RouteSvc.getEstimatedRoute request).distance =
        jsRound (RouteSvc.calculateDistance request.origin request.destination) := by
  intro httpOutcome request
  exact ⟨rfl, estimatedRoute_fields request⟩

/-- C2 counterexample: for origin `(0,0)`, destination `(0, 0.1)`, walking,
the estimator returns `distanceMeters = 11119` and `durationSeconds = 8000`,
but `11119 / 1.39 = 7999.28…`, so `durationSeconds` is *not* exactly
`distanceMeters / speed(mode)` (both fields are rounded independently). -/
theorem routeEstimate_exact_division_counterexample :
    RouteSvc.planRoute (Except.error "network unavailable")
        ⟨⟨0, 0⟩, ⟨0, 1 / 10⟩, TravelMode.walking, none⟩ =
      Except.ok (RouteSvc.getEstimatedRoute ⟨⟨0, 0⟩, ⟨0, 1 / 10⟩, TravelMode.walking, none⟩) ∧
    (RouteSvc.getEstimatedRoute ⟨⟨0, 0⟩, ⟨0, 1 / 10⟩, TravelMode.walking, none⟩).duration ≠
      ((RouteSvc.getEstimatedRoute ⟨⟨0, 0⟩, ⟨0, 1 / 10⟩, TravelMode.walking, none⟩).distance : ℚ) /
        1.39 := by
  constructor
  · rfl
  · rw [getEstimatedRoute_concrete]
    norm_num

/-- C7: a successfully parsed live routing response can be *equal*, field for
field, to an analytic estimate — `RouteResult` has no `source`
discriminator, so an estimated result is presented indistinguishably from
live data, contrary to the spec's required `source` field. -/
theorem parseResponse_collides_with_estimate :
    RouteSvc.parseResponse
        ⟨"1", "",
          some ⟨some [⟨some 11119, some 8000,
            some [⟨some "步行前往目的地", some "", some "", some 11119, some 8000⟩],
            none⟩]⟩⟩
        TravelMode.walking =
      Except.ok (RouteSvc.getEstimatedRoute ⟨⟨0, 0⟩, ⟨0, 1 / 10⟩, TravelMode.walking, none⟩) := by
  rw [getEstimatedRoute_concrete]
  rfl

theorem jsRound_c5_dist :
    jsRound (6371000 * ((1 / 200000 : ℝ) * Real.pi / 180)) = 1 := by
  have hl := Real.pi_gt_d20
  have hu := Real.pi_lt_d20
  have hv : 6371000 * ((1 / 200000 : ℝ) * Real.pi / 180) =
      Real.pi * (6371 / 36000) := by ring
  rw [hv]
  apply jsRound_eq_of
  · push_cast
    linarith
  · push_cast
    linarith

theorem jsRound_c5_dur :
    jsRound (6371000 * ((1 / 200000 : ℝ) * Real.pi / 180) / 1.39) = 0 := by
  have hl := Real.pi_gt_d20
  have hu := Real.pi_lt_d20
  have hv : 6371000 * ((1 / 200000 : ℝ) * Real.pi / 180) / 1.39 =
      Real.pi * (6371 / 50040) := by
    rw [show (1.39 : ℝ) = 139 / 100 by norm_num]
    ring
  rw [hv]
  apply jsRound_eq_of
  · push_cast
    linarith
  · push_cast
    linarith

theorem getEstimatedRoute_tiny :
    RouteSvc.getEstimatedRoute ⟨⟨0, 0⟩, ⟨0, 1 / 200000⟩, TravelMode.walking, none⟩ =
      { distance := 1, duration := 0,
        steps := [{ instruction := "步行前往目的地", orientation := "", roadName := "",
                    stepDistance := 1, duration := 0 }],
        polyline := none } := by
  have hd : RouteSvc.calculateDistance ⟨0, 0⟩ ⟨0, 1 / 200000⟩ =
      6371000 * (((1 / 200000 : ℚ) : ℝ) * Real.pi / 180) :=
    routeDistance_equator (1 / 200000) (by norm_num) (by norm_num)
  rw [show (((1 / 200000 : ℚ)) : ℝ) = (1 / 200000 : ℝ) by norm_num] at hd
  simp only [RouteSvc.getEstimatedRoute, hd, reduceIte]
  rw [jsRound_c5_dist, jsRound_c5_dur]
  norm_num
  decide

/-- C5 counterexample: with a time limit of 0 minutes, the candidate at
`(0, 0.000005)` — a strictly positive distance from the origin (raw distance
≈ 0.556 m, `distanceMeters = 1`) — is still *accepted*, because the
estimated duration `0.40 s` rounds to `0` seconds and `0 / 60 ≤ 0`. -/
theorem reachability_zero_limit_counterexample :
    RouteSvc.isWithinTimeLimit
        (RouteSvc.getEstimatedRoute ⟨⟨0, 0⟩, ⟨0, 1 / 200000⟩, TravelMode.walking, none⟩) 0 =
      true ∧
    0 < (RouteSvc.getEstimatedRoute ⟨⟨0, 0⟩, ⟨0, 1 / 200000⟩, TravelMode.walking, none⟩).distance ∧
    0 < RouteSvc.calculateDistance ⟨0, 0⟩ ⟨0, 1 / 200000⟩ := by
  refine ⟨?_, ?_, ?_⟩
  · rw [getEstimatedRoute_tiny]
    unfold RouteSvc.isWithinTimeLimit
    norm_num
  · rw [getEstimatedRoute_tiny]
    norm_num
  · rw [routeDistance_equator (1 / 200000) (by norm_num) (by norm_num)]
    positivity

/-- C5 (amended): the filter accepts exactly when `durationSeconds / 60 ≤
timeLimitMinutes`; for an estimated route with time limit 0, a candidate is
accepted iff its raw distance is below `speed(mode) / 2` metres (the rounded
duration is then 0 s), so positive sub-metre distances can still pass —
"no candidate is accepted at limit 0" holds only from half a second of
travel (≈ 0.7 m walking) upwards. -/
theorem isWithinTimeLimit_divides_and_zero_limit_rounds :
    (∀ (route : RouteSvc.RouteResult) (timeLimit : ℚ),
        RouteSvc.isWithinTimeLimit route timeLimit = true ↔
          route.duration ≤ 60 * timeLimit) ∧
    (∀ request : RouteSvc.RouteRequest,
        RouteSvc.isWithinTimeLimit (RouteSvc.getEstimatedRoute request) 0 = true ↔
          RouteSvc.calculateDistance request.origin request.destination <
            RouteSvc.speed request.travelMode / 2) := by
  constructor
  · intro route timeLimit
    unfold RouteSvc.isWithinTimeLimit
    rw [decide_eq_true_iff, div_le_iff (by norm_num : (0:ℚ) < 60)]
    constructor <;> intro h <;> linarith
  · intro request
    have h1 := (estimatedRoute_fields request).1
    unfold RouteSvc.isWithinTimeLimit
    rw [decide_eq_true_iff, h1]
    have hsp := speed_pos request.travelMode
    constructor
    · intro h
      have hz : (jsRound (RouteSvc.calculateDistance request.origin request.destination /
          RouteSvc.speed request.travelMode) : ℚ) ≤ 0 := by linarith
      have hz2 : jsRound (RouteSvc.calculateDistance request.origin request.destination /
          RouteSvc.speed request.travelMode) ≤ 0 := by exact_mod_cast hz
      have hlt : RouteSvc.calculateDistance request.origin request.destination /
          RouteSvc.speed request.travelMode + 1 / 2 < 1 := by
        by_contra hge
        push_neg at hge
        have : (1 : ℤ) ≤ jsRound (RouteSvc.calculateDistance request.origin request.destination /
            RouteSvc.speed request.travelMode) := by
          unfold jsRound
          exact Int.le_floor.mpr (by exact_mod_cast hge)
        omega
      rw [div_add' _ _ _ (ne_of_gt hsp)] at hlt
      rw [div_lt_iff hsp] at hlt
      nlinarith
    · intro h
      have hw : RouteSvc.calculateDistance request.origin request.destination /
          RouteSvc.speed request.travelMode < 1 / 2 := by
        rw [div_lt_iff hsp]
        nlinarith
      have hfl : jsRound (RouteSvc.calculateDistance request.origin request.destination /
          RouteSvc.speed request.travelMode) < 1 := by
        unfold jsRound
        exact Int.floor_lt.mpr (by push_cast; linarith)
      have hle : jsRound (RouteSvc.calculateDistance request.origin request.destination /
          RouteSvc.speed request.travelMode) ≤ 0 := by omega
      have : ((jsRound (RouteSvc.calculateDistance request.origin request.destination /
          RouteSvc.speed request.travelMode) : ℤ) : ℚ) ≤ 0 := by exact_mod_cast hle
      linarith

theorem jsRound_c1_ovp :
    jsRound (6371000 * ((1 / 1000 : ℝ) * Real.pi / 180)) = 111 := by
  have hl := Real.pi_gt_d20
  have hu := Real.pi_lt_d20
  have hv : 6371000 * ((1 / 1000 : ℝ) * Real.pi / 180) =
      Real.pi * (6371 / 180) := by ring
  rw [hv]
  apply jsRound_eq_of
  · push_cast
    linarith
  · push_cast
    linarith

theorem searchNearby_cases (site : Except Unit (List Huawei.RawSite))
    (ovp : Except Unit (List Huawei.OvpElement)) (lon lat r : ℚ) :
    Huawei.searchNearbyToilets site ovp lon lat r = Huawei.getMockToiletData lon lat r ∨
    (∃ items, site = Except.ok items ∧ items ≠ [] ∧
      Huawei.searchNearbyToilets site ovp lon lat r = Huawei.normalizeSite lon lat r items) ∨
    (∃ els, ovp = Except.ok els ∧
      Huawei.searchNearbyToilets site ovp lon lat r = Huawei.normalizeOvp lon lat r els) := by
  cases site with
  | error e =>
    cases ovp with
    | error e2 => left; rfl
    | ok els => right; right; exact ⟨els, rfl, rfl⟩
  | ok items =>
    cases items with
    | nil =>
      cases ovp with
      | error e2 => left; rfl
      | ok els => right; right; exact ⟨els, rfl, rfl⟩
    | cons hd tl =>
      right; left
      exact ⟨hd :: tl, rfl, by simp, rfl⟩

/-- C1 (amended): the aggregator advances past the site-search strategy when
its *raw* item list is empty (or the strategy errors), and then returns
exactly the Overpass strategy's normalized points; and every result comes
from a single strategy (site normalization, Overpass normalization, or mock
data), never a mix.  However — see the counterexample — a *non-empty raw*
site response whose normalization yields zero points is returned as the
final empty result; the "empty after normalization" case does **not**
advance. -/
theorem aggregator_raw_empty_advances_and_single_source :
    (∀ (els : List Huawei.OvpElement) (lon lat r : ℚ),
        Huawei.searchNearbyToilets (Except.ok []) (Except.ok els) lon lat r =
          Huawei.normalizeOvp lon lat r els) ∧
    (∀ (site : Except Unit (List Huawei.RawSite)) (ovp : Except Unit (List Huawei.OvpElement))
        (lon lat r : ℚ),
        Huawei.searchNearbyToilets site ovp lon lat r = Huawei.getMockToiletData lon lat r ∨
        (∃ items, site = Except.ok items ∧ items ≠ [] ∧
          Huawei.searchNearbyToilets site ovp lon lat r = Huawei.normalizeSite lon lat r items) ∨
        (∃ els, ovp = Except.ok els ∧
          Huawei.searchNearbyToilets site ovp lon lat r = Huawei.normalizeOvp lon lat r els)) :=
  ⟨fun _ _ _ _ => rfl, searchNearby_cases⟩

/-- C1 counterexample: the site search succeeds structurally with one raw
item at `(0, 0.1)` — 11119 m away, outside the 1500 m radius, so its
normalization is empty — while Overpass would deliver one valid point at
`(0, 0.001)` (111 m).  The aggregator does *not* advance: it returns the
empty normalized site result instead of the later strategy's points. -/
theorem aggregator_masks_downstream_counterexample :
    Huawei.normalizeSite 0 0 1500 [⟨"s1", "公共厕所", "", some 0, some (1 / 10)⟩] = [] ∧
    Huawei.normalizeOvp 0 0 1500 [⟨"o1", {}, some 0, some (1 / 1000)⟩] =
      [⟨"o1", "公共厕所", "", some 0, some (1 / 1000), some 111⟩] ∧
    Huawei.searchNearbyToilets (Except.ok [⟨"s1", "公共厕所", "", some 0, some (1 / 10)⟩])
        (Except.ok [⟨"o1", {}, some 0, some (1 / 1000)⟩]) 0 0 1500 = [] ∧
    Huawei.searchNearbyToilets (Except.ok [⟨"s1", "公共厕所", "", some 0, some (1 / 10)⟩])
        (Except.ok [⟨"o1", {}, some 0, some (1 / 1000)⟩]) 0 0 1500 ≠
      Huawei.normalizeOvp 0 0 1500 [⟨"o1", {}, some 0, some (1 / 1000)⟩] := by
  have hsite : jsRound (Huawei.siteHaversine ((0 : ℚ) : ℝ) ((0 : ℚ) : ℝ) ((0 : ℚ) : ℝ)
      (((1 : ℚ) / 10 : ℚ) : ℝ)) = 11119 := by
    rw [show ((0 : ℚ) : ℝ) = (0 : ℝ) by norm_num,
      show (((1 : ℚ) / 10 : ℚ) : ℝ) = (1 / 10 : ℝ) by norm_num,
      siteHaversine_equator _ (by norm_num) (by norm_num)]
    exact jsRound_c2_dist
  have hovp : jsRound (Huawei.ovpHaversine ((0 : ℚ) : ℝ) ((0 : ℚ) : ℝ) ((0 : ℚ) : ℝ)
      (((1 : ℚ) / 1000 : ℚ) : ℝ)) = 111 := by
    rw [show ((0 : ℚ) : ℝ) = (0 : ℝ) by norm_num,
      show (((1 : ℚ) / 1000 : ℚ) : ℝ) = (1 / 1000 : ℝ) by norm_num,
      ovpHaversine_equator _ (by norm_num) (by norm_num)]
    exact jsRound_c1_ovp
  have h1 : Huawei.normalizeSite 0 0 1500 [⟨"s1", "公共厕所", "", some 0, some (1 / 10)⟩] = [] := by
    unfold Huawei.normalizeSite
    dsimp only [List.map_cons, List.map_nil]
    rw [hsite]
    decide
  have h2 : Huawei.normalizeOvp 0 0 1500 [⟨"o1", {}, some 0, some (1 / 1000)⟩] =
      [⟨"o1", "公共厕所", "", some 0, some (1 / 1000), some 111⟩] := by
    unfold Huawei.normalizeOvp
    dsimp only [List.map_cons, List.map_nil]
    rw [hovp]
    rfl
  have h3 : Huawei.searchNearbyToilets (Except.ok [⟨"s1", "公共厕所", "", some 0, some (1 / 10)⟩])
      (Except.ok [⟨"o1", {}, some 0, some (1 / 1000)⟩]) 0 0 1500 =
      Huawei.normalizeSite 0 0 1500 [⟨"s1", "公共厕所", "", some 0, some (1 / 10)⟩] := rfl
  refine ⟨h1, h2, ?_, ?_⟩
  · rw [h3, h1]
  · rw [h3, h1, h2]
    intro hcontra
    exact List.cons_ne_nil _ _ hcontra.symm

/-- C10: the POI search entry point never rejects: when both network
strategies fail (site search error or raw-empty, Overpass error), the
built-in mock seed data — filtered by radius and sorted — is returned as the
last resort, and in every case the returned list is exactly one strategy's
normalized output or the mock list. -/
theorem searchNearbyToilets_never_rejects :
    (∀ lon lat r : ℚ,
        Huawei.searchNearbyToilets (Except.error ()) (Except.error ()) lon lat r =
          Huawei.getMockToiletData lon lat r) ∧
    (∀ lon lat r : ℚ,
        Huawei.searchNearbyToilets (Except.ok []) (Except.error ()) lon lat r =
          Huawei.getMockToiletData lon lat r) ∧
    (∀ (site : Except Unit (List Huawei.RawSite)) (ovp : Except Unit (List Huawei.OvpElement))
        (lon lat r : ℚ),
        Huawei.searchNearbyToilets site ovp lon lat r = Huawei.getMockToiletData lon lat r ∨
        (∃ items, site = Except.ok items ∧ items ≠ [] ∧
          Huawei.searchNearbyToilets site ovp lon lat r = Huawei.normalizeSite lon lat r items) ∨
        (∃ els, ovp = Except.ok els ∧
          Huawei.searchNearbyToilets site ovp lon lat r = Huawei.normalizeOvp lon lat r els)) :=
  ⟨fun _ _ _ => rfl, fun _ _ _ => rfl, searchNearby_cases⟩

/-- C3: when every link candidate fails to launch, the dispatcher reports no
successful URI and writes exactly one aggregated failure record, whose
payload carries the destination coordinate and whose message names the
failing engine. -/
theorem openNavigation_all_fail_logs_once (env : Launcher.NavEnv)
    (engine toiletName : String) (latitude longitude : ℚ) (travelMode : TravelMode)
    (hfail : ∀ uri ∈ Launcher.buildCandidates engine travelMode latitude longitude
        (Launcher.encodeURIComponent toiletName), Launcher.tryOpen env uri = false) :
    (Launcher.openNavigation env engine toiletName latitude longitude travelMode).1 = none ∧
    (Launcher.openNavigation env engine toiletName latitude longitude travelMode).2 =
      [{ message := "导航失败: all navigation attempts failed | engine=" ++ engine,
         centerLatitude := latitude, centerLongitude := longitude }] := by
  simp only [Launcher.openNavigation]
  have hfind : (Launcher.buildCandidates engine travelMode latitude longitude
      (Launcher.encodeURIComponent toiletName)).find?
      (fun uri => Launcher.tryOpen env uri) = none :=
    List.find?_eq_none.mpr fun x hx => by simp [hfail x hx]
  rw [hfind]
  exact ⟨rfl, rfl⟩

theorem openNavigation_all_fail_logs_once_witness :
    (Launcher.openNavigation ⟨fun _ => some false, fun _ => false, fun _ => false⟩
        "huawei" "公厕" 1 2 TravelMode.walking).1 = none ∧
    (Launcher.openNavigation ⟨fun _ => some false, fun _ => false, fun _ => false⟩
        "huawei" "公厕" 1 2 TravelMode.walking).2 =
      [{ message := "导航失败: all navigation attempts failed | engine=" ++ "huawei",
         centerLatitude := 1, centerLongitude := 2 }] :=
  openNavigation_all_fail_logs_once ⟨fun _ => some false, fun _ => false, fun _ => false⟩
    "huawei" "公厕" 1 2 TravelMode.walking
    (fun uri _ => by unfold Launcher.tryOpen Launcher.canOpen; simp)

/-- C6: for every destination, travel mode and selected engine, the built
candidate list is non-empty and deterministically ordered: the selected
engine's deep links (Huawei's Petal/MapApp links for the default branch)
come first and are themselves non-empty, the generic `geo:` coordinate-query
link is second-to-last, and the web fallback is always appended as the last
rank. -/
theorem buildCandidates_fallback_order (engine : String) (travelMode : TravelMode)
    (latitude longitude : ℚ) (name : String) :
    Launcher.buildCandidates engine travelMode latitude longitude name ≠ [] ∧
    (Launcher.buildCandidates engine travelMode latitude longitude name).getLast? =
      some (Launcher.httpsFallback latitude longitude) ∧
    (Launcher.buildCandidates engine travelMode latitude longitude name).dropLast.getLast? =
      some (Launcher.geoUri latitude longitude name) ∧
    (Launcher.buildCandidates engine travelMode latitude longitude name).dropLast.dropLast ≠ [] ∧
    ∀ uri ∈ (Launcher.buildCandidates engine travelMode latitude longitude name).dropLast.dropLast,
      Launcher.isEngineDeepLink engine uri := by
  by_cases ha : engine = "amap"
  · refine ⟨?_, ?_, ?_, ?_, ?_⟩ <;> simp only [Launcher.buildCandidates, if_pos ha]
    · simp
    · rfl
    · rfl
    · simp
    · intro uri hmem
      simp only [List.cons_append, List.nil_append, List.dropLast, List.mem_singleton] at hmem
      subst hmem
      unfold Launcher.isEngineDeepLink
      rw [if_pos ha]
      refine ⟨"route/plan/?dlat=" ++ toString latitude ++ "&dlon=" ++ toString longitude ++
        "&dname=" ++ name ++ "&dev=0&t=" ++
        (if travelMode = TravelMode.walking then "2" else "0"), ?_⟩
      simp only [← String.append_assoc]
      rfl
  · by_cases hb : engine = "baidu"
    · refine ⟨?_, ?_, ?_, ?_, ?_⟩ <;> simp only [Launcher.buildCandidates, if_neg ha, if_pos hb]
      · simp
      · rfl
      · rfl
      · simp
      · intro uri hmem
        simp only [List.cons_append, List.nil_append, List.dropLast, List.mem_singleton] at hmem
        subst hmem
        unfold Launcher.isEngineDeepLink
        rw [if_neg ha, if_pos hb]
        refine ⟨"map/direction?destination=latlng:" ++ toString latitude ++ "," ++
          toString longitude ++ "|name:" ++ name ++ "&coord_type=wgs84&mode=" ++
          (if travelMode = TravelMode.walking then "walking" else "riding"), ?_⟩
        simp only [← String.append_assoc]
        rfl
    · refine ⟨?_, ?_, ?_, ?_, ?_⟩ <;> simp only [Launcher.buildCandidates, if_neg ha, if_neg hb]
      · simp
      · rfl
      · rfl
      · simp
      · intro uri hmem
        simp only [List.cons_append, List.nil_append, List.dropLast, List.mem_cons,
          List.mem_singleton, List.not_mem_nil, or_false] at hmem
        unfold Launcher.isEngineDeepLink
        rw [if_neg ha, if_neg hb]
        rcases hmem with h | h | h | h <;> subst h
        · left
          refine ⟨"routePlan?destLat=" ++ toString latitude ++ "&destLng=" ++
            toString longitude ++ "&destName=" ++ name ++ "&navType=" ++
            (if travelMode = TravelMode.walking then "walking" else "cycling"), ?_⟩
          simp only [← String.append_assoc]
          rfl
        · left
          refine ⟨"routePlan?destLat=" ++ toString latitude ++ "&destLng=" ++
            toString longitude ++ "&destName=" ++ name ++ "&navType=" ++
            (if travelMode = TravelMode.walking then "walk" else "bike"), ?_⟩
          simp only [← String.append_assoc]
          rfl
        · left
          refine ⟨"navigation?dlat=" ++ toString latitude ++ "&dlon=" ++
            toString longitude ++ "&dname=" ++ name ++ "&type=" ++
            (if travelMode = TravelMode.walking then "walk" else "bike"), ?_⟩
          simp only [← String.append_assoc]
          rfl
        · right
          refine ⟨"navigation?daddr=" ++ toString latitude ++ "," ++ toString longitude ++
            "&language=zh&type=" ++
            (if travelMode = TravelMode.walking then "walk" else "cycle"), ?_⟩
          simp only [← String.append_assoc]
          rfl

theorem buildCandidates_fallback_order_witness :
    Launcher.buildCandidates "amap" TravelMode.walking 1 2 "x" ≠ [] ∧
    (Launcher.buildCandidates "amap" TravelMode.walking 1 2 "x").getLast? =
      some (Launcher.httpsFallback 1 2) ∧
    (Launcher.buildCandidates "amap" TravelMode.walking 1 2 "x").dropLast.getLast? =
      some (Launcher.geoUri 1 2 "x") ∧
    (Launcher.buildCandidates "amap" TravelMode.walking 1 2 "x").dropLast.dropLast ≠ [] ∧
    ∀ uri ∈ (Launcher.buildCandidates "amap" TravelMode.walking 1 2 "x").dropLast.dropLast,
      Launcher.isEngineDeepLink "amap" uri :=
  buildCandidates_fallback_order "amap" TravelMode.walking 1 2 "x"

set_option maxHeartbeats 800000 in
theorem c9_expr :
    Haversine.distanceKm ⟨31.2304, 121.4737⟩ ⟨31.2317, 121.4750⟩ =
      6371 * (2 * atan2
        (Real.sqrt (Real.sin (13 * Real.pi / 3600000) * Real.sin (13 * Real.pi / 3600000) +
          Real.cos (((31.2304 : ℚ) : ℝ) * (Real.pi / 180)) *
            Real.cos (((31.2317 : ℚ) : ℝ) * (Real.pi / 180)) *
          (Real.sin (13 * Real.pi / 3600000) * Real.sin (13 * Real.pi / 3600000))))
        (Real.sqrt (1 - (Real.sin (13 * Real.pi / 3600000) * Real.sin (13 * Real.pi / 3600000) +
          Real.cos (((31.2304 : ℚ) : ℝ) * (Real.pi / 180)) *
            Real.cos (((31.2317 : ℚ) : ℝ) * (Real.pi / 180)) *
          (Real.sin (13 * Real.pi / 3600000) * Real.sin (13 * Real.pi / 3600000)))))) := by
  have e1 : ((31.2317 - 31.2304 : ℚ) : ℝ) * (Real.pi / 180) / 2 = 13 * Real.pi / 3600000 := by
    push_cast
    ring_nf
  have e2 : ((121.4750 - 121.4737 : ℚ) : ℝ) * (Real.pi / 180) / 2 = 13 * Real.pi / 3600000 := by
    push_cast
    ring_nf
  simp only [Haversine.distanceKm, Haversine.toRadians, Haversine.EARTH_RADIUS_KM]
  rw [e1, e2]

set_option maxHeartbeats 1000000 in
theorem c9_distance_bounds :
    189.5 ≤ Haversine.distanceKm ⟨31.2304, 121.4737⟩ ⟨31.2317, 121.4750⟩ * 1000 ∧
    Haversine.distanceKm ⟨31.2304, 121.4737⟩ ⟨31.2317, 121.4750⟩ * 1000 < 190.5 := by
  have hpl := Real.pi_gt_d20
  have hpu := Real.pi_lt_d20
  -- the half-Δ angle and its sine
  have hX0 : (0 : ℝ) < 13 * Real.pi / 3600000 := by positivity
  have hXhi : 13 * Real.pi / 3600000 ≤ (0.000011344640138 : ℝ) := by linarith only [hpu]
  have hXlo : (0.0000113446401379 : ℝ) ≤ 13 * Real.pi / 3600000 := by linarith only [hpl]
  have hS_hi : Real.sin (13 * Real.pi / 3600000) ≤ (0.000011344640138 : ℝ) :=
    le_trans (Real.sin_lt hX0).le hXhi
  have hXcube : (13 * Real.pi / 3600000) ^ 3 ≤ (0.00000000000000147 : ℝ) :=
    le_trans (pow_le_pow_left₀ hX0.le hXhi 3) (by norm_num)
  have hS_lo : (0.0000113446401375 : ℝ) ≤ Real.sin (13 * Real.pi / 3600000) := by
    have hc := Real.sin_gt_sub_cube hX0 (by linarith only [hpu])
    linarith only [hc, hXcube, hXlo]
  have hS0 : (0 : ℝ) ≤ Real.sin (13 * Real.pi / 3600000) := by linarith only [hS_lo]
  -- sine of the first half latitude
  have hh1lo : (0.272536653357 : ℝ) ≤ 19519 * Real.pi / 225000 := by linarith only [hpl]
  have hh1hi : 19519 * Real.pi / 225000 ≤ (0.272536653358 : ℝ) := by linarith only [hpu]
  have hh10 : (0 : ℝ) ≤ 19519 * Real.pi / 225000 := by positivity
  have hsw1 := sin_sandwich (19519 * Real.pi / 225000) hh10 (by linarith only [hh1hi])
  have hp31 : (19519 * Real.pi / 225000) ^ 3 ≤ (0.0202429945 : ℝ) :=
    le_trans (pow_le_pow_left₀ hh10 hh1hi 3) (by norm_num)
  have hp31' : (0.0202429944 : ℝ) ≤ (19519 * Real.pi / 225000) ^ 3 :=
    le_trans (by norm_num) (pow_le_pow_left₀ (by norm_num) hh1lo 3)
  have hp41 : (19519 * Real.pi / 225000) ^ 4 ≤ (0.0055169580 : ℝ) :=
    le_trans (pow_le_pow_left₀ hh10 hh1hi 4) (by norm_num)
  have hsh1_lo : (0.26887547 : ℝ) ≤ Real.sin (19519 * Real.pi / 225000) := by
    linarith only [hsw1.1, hp31, hp41, hh1lo]
  have hsh1_hi : Real.sin (19519 * Real.pi / 225000) ≤ (0.26945017 : ℝ) := by
    linarith only [hsw1.2, hp31', hp41, hh1hi]
  have hsh1_0 : (0 : ℝ) ≤ Real.sin (19519 * Real.pi / 225000) := by linarith only [hsh1_lo]
  -- sine of the second half latitude
  have hh2lo : (0.272547997997 : ℝ) ≤ 312317 * Real.pi / 3600000 := by linarith only [hpl]
  have hh2hi : 312317 * Real.pi / 3600000 ≤ (0.272547997998 : ℝ) := by linarith only [hpu]
  have hh20 : (0 : ℝ) ≤ 312317 * Real.pi / 3600000 := by positivity
  have hsw2 := sin_sandwich (312317 * Real.pi / 3600000) hh20 (by linarith only [hh2hi])
  have hp32 : (312317 * Real.pi / 3600000) ^ 3 ≤ (0.0202455225 : ℝ) :=
    le_trans (pow_le_pow_left₀ hh20 hh2hi 3) (by norm_num)
  have hp32' : (0.0202455224 : ℝ) ≤ (312317 * Real.pi / 3600000) ^ 3 :=
    le_trans (by norm_num) (pow_le_pow_left₀ (by norm_num) hh2lo 3)
  have hp42 : (312317 * Real.pi / 3600000) ^ 4 ≤ (0.0055178767 : ℝ) :=
    le_trans (pow_le_pow_left₀ hh20 hh2hi 4) (by norm_num)
  have hsh2_lo : (0.26888635 : ℝ) ≤ Real.sin (312317 * Real.pi / 3600000) := by
    linarith only [hsw2.1, hp32, hp42, hh2lo]
  have hsh2_hi : Real.sin (312317 * Real.pi / 3600000) ≤ (0.26946114 : ℝ) := by
    linarith only [hsw2.2, hp32', hp42, hh2hi]
  have hsh2_0 : (0 : ℝ) ≤ Real.sin (312317 * Real.pi / 3600000) := by linarith only [hsh2_lo]
  -- cosines via the half-angle identity
  have hT1eq : ((31.2304 : ℚ) : ℝ) * (Real.pi / 180) = 2 * (19519 * Real.pi / 225000) := by
    push_cast
    ring_nf
  have hc1eq : Real.cos (((31.2304 : ℚ) : ℝ) * (Real.pi / 180)) =
      1 - 2 * Real.sin (19519 * Real.pi / 225000) ^ 2 := by
    rw [hT1eq, Real.cos_two_mul]
    have hpc := Real.sin_sq_add_cos_sq (19519 * Real.pi / 225000)
    linarith only [hpc]
  have hsq1_hi : Real.sin (19519 * Real.pi / 225000) ^ 2 ≤ (0.26945017 : ℝ) * 0.26945017 := by
    rw [pow_two]
    exact mul_le_mul hsh1_hi hsh1_hi hsh1_0 (by norm_num)
  have hsq1_lo : (0.26887547 : ℝ) * 0.26887547 ≤ Real.sin (19519 * Real.pi / 225000) ^ 2 := by
    rw [pow_two]
    exact mul_le_mul hsh1_lo hsh1_lo (by norm_num) hsh1_0
  have hc1_lo : (0.85479321 : ℝ) ≤ Real.cos (((31.2304 : ℚ) : ℝ) * (Real.pi / 180)) := by
    rw [hc1eq]
    linarith only [hsq1_hi]
  have hc1_hi : Real.cos (((31.2304 : ℚ) : ℝ) * (Real.pi / 180)) ≤ (0.85541197 : ℝ) := by
    rw [hc1eq]
    linarith only [hsq1_lo]
  have hT2eq : ((31.2317 : ℚ) : ℝ) * (Real.pi / 180) = 2 * (312317 * Real.pi / 3600000) := by
    push_cast
    ring_nf
  have hc2eq : Real.cos (((31.2317 : ℚ) : ℝ) * (Real.pi / 180)) =
      1 - 2 * Real.sin (312317 * Real.pi / 3600000) ^ 2 := by
    rw [hT2eq, Real.cos_two_mul]
    have hpc := Real.sin_sq_add_cos_sq (312317 * Real.pi / 3600000)
    linarith only [hpc]
  have hsq2_hi : Real.sin (312317 * Real.pi / 3600000) ^ 2 ≤ (0.26946114 : ℝ) * 0.26946114 := by
    rw [pow_two]
    exact mul_le_mul hsh2_hi hsh2_hi hsh2_0 (by norm_num)
  have hsq2_lo : (0.26888635 : ℝ) * 0.26888635 ≤ Real.sin (312317 * Real.pi / 3600000) ^ 2 := by
    rw [pow_two]
    exact mul_le_mul hsh2_lo hsh2_lo (by norm_num) hsh2_0
  have hc2_lo : (0.85478138 : ℝ) ≤ Real.cos (((31.2317 : ℚ) : ℝ) * (Real.pi / 180)) := by
    rw [hc2eq]
    linarith only [hsq2_hi]
  have hc2_hi : Real.cos (((31.2317 : ℚ) : ℝ) * (Real.pi / 180)) ≤ (0.85540027 : ℝ) := by
    rw [hc2eq]
    linarith only [hsq2_lo]
  -- fold the expression
  rw [c9_expr]
  set S := Real.sin (13 * Real.pi / 3600000) with hSdef
  set C1 := Real.cos (((31.2304 : ℚ) : ℝ) * (Real.pi / 180)) with hC1def
  set C2 := Real.cos (((31.2317 : ℚ) : ℝ) * (Real.pi / 180)) with hC2def
  have hSS_lo : (0.0000113446401375 : ℝ) * 0.0000113446401375 ≤ S * S :=
    mul_le_mul hS_lo hS_lo (by norm_num) hS0
  have hSS_hi : S * S ≤ (0.000011344640138 : ℝ) * 0.000011344640138 :=
    mul_le_mul hS_hi hS_hi hS0 (by norm_num)
  have hC1_0 : (0 : ℝ) ≤ C1 := by linarith only [hc1_lo]
  have hC2_0 : (0 : ℝ) ≤ C2 := by linarith only [hc2_lo]
  have hCC_lo : (0.85479321 : ℝ) * 0.85478138 ≤ C1 * C2 :=
    mul_le_mul hc1_lo hc2_lo (by norm_num) hC1_0
  have hCC_hi : C1 * C2 ≤ (0.85541197 : ℝ) * 0.85540027 :=
    mul_le_mul hc1_hi hc2_hi hC2_0 (by norm_num)
  have hCC_0 : (0 : ℝ) ≤ C1 * C2 := mul_nonneg hC1_0 hC2_0
  have hSS_0 : (0 : ℝ) ≤ S * S := mul_nonneg hS0 hS0
  have hCS_lo : ((0.85479321 : ℝ) * 0.85478138) *
      ((0.0000113446401375 : ℝ) * 0.0000113446401375) ≤ C1 * C2 * (S * S) :=
    mul_le_mul hCC_lo hSS_lo (by norm_num) hCC_0
  have hCS_hi : C1 * C2 * (S * S) ≤ ((0.85541197 : ℝ) * 0.85540027) *
      ((0.000011344640138 : ℝ) * 0.000011344640138) :=
    mul_le_mul hCC_hi hSS_hi hSS_0 (by norm_num)
  have hA_lo : (0.000000000222737599948095 : ℝ) ≤ S * S + C1 * C2 * (S * S) := by
    linarith only [hSS_lo, hCS_lo]
  have hA_hi : S * S + C1 * C2 * (S * S) ≤ (0.000000000222873805431461 : ℝ) := by
    linarith only [hSS_hi, hCS_hi]
  have hA0 : (0 : ℝ) ≤ S * S + C1 * C2 * (S * S) := by linarith only [hA_lo]
  have hA1 : S * S + C1 * C2 * (S * S) ≤ 1 := by linarith only [hA_hi]
  rw [atan2_sqrt_eq_arcsin _ hA0 hA1]
  have hsq_lo : (0.000014924396 : ℝ) ≤ Real.sqrt (S * S + C1 * C2 * (S * S)) := by
    rw [Real.le_sqrt (by norm_num) hA0]
    exact le_trans (by norm_num) hA_lo
  have hsq_hi : Real.sqrt (S * S + C1 * C2 * (S * S)) ≤ (0.000014928959 : ℝ) := by
    rw [Real.sqrt_le_left (by norm_num)]
    exact le_trans hA_hi (by norm_num)
  have hsqrt0 : 0 ≤ Real.sqrt (S * S + C1 * C2 * (S * S)) := Real.sqrt_nonneg _
  have harc_lo : (0.000014924396 : ℝ) ≤
      Real.arcsin (Real.sqrt (S * S + C1 * C2 * (S * S))) :=
    le_trans hsq_lo (le_arcsin_self _ hsqrt0 (by linarith only [hsq_hi]))
  have harc_hi : Real.arcsin (Real.sqrt (S * S + C1 * C2 * (S * S))) ≤
      (0.000014928959 : ℝ) + (0.000014928959 : ℝ) ^ 3 :=
    le_trans (Real.monotone_arcsin hsq_hi) (arcsin_le_small _ (by norm_num) (by norm_num))
  have hc3 : ((0.000014928959 : ℝ)) ^ 3 ≤ 0.0000000000000034 := by norm_num
  constructor
  · linarith only [harc_lo]
  · linarith only [harc_hi, hc3]

theorem c9_calc_190 :
    Haversine.calculateDistance ⟨31.2304, 121.4737⟩ ⟨31.2317, 121.4750⟩ = 190 := by
  unfold Haversine.calculateDistance
  apply jsRound_eq_of
  · have := c9_distance_bounds.1
    push_cast
    linarith
  · have := c9_distance_bounds.2
    push_cast
    linarith

/-- C9 counterexample: for the scenario center `(31.2304, 121.4737)`, the
computed `distanceMeters` to the seed point `(31.2317, 121.4750)` is 190 m
(rounded to the nearest metre), not ≈170 m as the spec claims. -/
theorem seed_distance_not_170_counterexample :
    Haversine.calculateDistance ⟨31.2304, 121.4737⟩ ⟨31.2317, 121.4750⟩ = 190 ∧
    ¬Haversine.calculateDistance ⟨31.2304, 121.4737⟩ ⟨31.2317, 121.4750⟩ = 170 := by
  refine ⟨c9_calc_190, ?_⟩
  rw [c9_calc_190]
  decide

/-- C9 (amended): for the query with center `(31.2304, 121.4737)`, radius
1500 m and default limit, the seed point `toilet_001` at
`(31.2317, 121.4750)` is included in the search results with
`distanceMeters = 190` (rounded to the nearest metre; the spec's "≈ 170 m"
does not match the haversine value). -/
theorem seed_included_with_distance_190 :
    (⟨⟨31.2317, 121.4750⟩, "toilet_001", "人民广场地铁站公厕", some 190,
        some "06:00-23:00"⟩ : ToiletPoi) ∈
      LocalProvider.searchToilets LocalProvider.getDefaultSeedData
        ⟨⟨31.2304, 121.4737⟩, 1500, none⟩ ∧
    Haversine.calculateDistance ⟨31.2304, 121.4737⟩ ⟨31.2317, 121.4750⟩ = 190 := by
  refine ⟨?_, c9_calc_190⟩
  simp only [LocalProvider.searchToilets, Option.getD_none, LocalProvider.DEFAULT_LIMIT]
  rw [List.take_of_length_le (by
    rw [LocalProvider.length_sortByDistance]
    exact le_trans (List.length_filter_le _ _) (by simp [LocalProvider.getDefaultSeedData]))]
  unfold Haversine.sortByDistance
  rw [List.mem_insertionSort]
  refine List.mem_map.mpr
    ⟨⟨⟨31.2317, 121.4750⟩, "toilet_001", "人民广场地铁站公厕", none, some "06:00-23:00"⟩, ?_, ?_⟩
  · refine List.mem_filter.mpr ⟨?_, ?_⟩
    · simp [LocalProvider.getDefaultSeedData]
    · show Haversine.isWithinRadius _ _ _ = true
      unfold Haversine.isWithinRadius
      rw [show (⟨⟨31.2317, 121.4750⟩, "toilet_001", "人民广场地铁站公厕", none,
        some "06:00-23:00"⟩ : ToiletPoi).toLatLng = ⟨31.2317, 121.4750⟩ from rfl, c9_calc_190]
      decide
  · rw [show (⟨⟨31.2317, 121.4750⟩, "toilet_001", "人民广场地铁站公厕", none,
      some "06:00-23:00"⟩ : ToiletPoi).toLatLng = ⟨31.2317, 121.4750⟩ from rfl, c9_calc_190]
